import Mathlib

set_option maxRecDepth 100000

namespace PAUSA

/-- A JavaScript value as it can appear in a field of the request `context`
object: absent (`undefined`), a string, or an array of strings.  These are the
only shapes the front-end form and the netlify function exchange. -/
inductive JSVal where
  | undef
  | str (s : String)
  | arr (l : List String)
deriving DecidableEq

/-- JavaScript whitespace as `String.prototype.trim` removes it (the
characters that occur in this code base). -/
def isJsSpace (c : Char) : Bool :=
  c = ' ' || c = '\t' || c = '\n' || c = '\r'

/-- Embeds `String.prototype.trim`: drop whitespace from both ends. -/
def jsTrim (s : String) : String :=
  ⟨((s.data.dropWhile isJsSpace).reverse.dropWhile isJsSpace).reverse⟩

/-- Embeds `String.prototype.toLowerCase` on the ASCII strings this code
base passes through it. -/
def jsToLower (s : String) : String :=
  ⟨s.data.map Char.toLower⟩

/-- Embeds `safeString` from `netlify/functions/generate-report.js`: return the
value when it is a string whose trim is non-empty, otherwise the fallback. -/
def safeString (value : JSVal) (fallback : String) : String :=
  match value with
  | .str s => if jsTrim s ≠ "" then s else fallback
  | _ => fallback

/-- Embeds `safeArrayJoin`: join a non-empty array with the separator,
return the empty string for any non-array or empty-array input. -/
def safeArrayJoin (arr : JSVal) (separator : String) : String :=
  match arr with
  | .arr l => if l.length > 0 then String.intercalate separator l else ""
  | _ => ""

/-- The request `context` object (the fact sheet) as the netlify function reads
it.  Every field the backend extracts is present, plus the fields the front-end
form actually sends (`location`, `causationDate`, `engineerNotes`), which the
backend never reads. -/
structure Context where
  investigationDate : JSVal
  dateOfLoss : JSVal
  claimType : JSVal
  propertyType : JSVal
  propertyAge : JSVal
  constructionType : JSVal
  currentUse : JSVal
  squareFootage : JSVal
  address : JSVal
  clientName : JSVal
  engineerName : JSVal
  engineerEmail : JSVal
  engineerLicense : JSVal
  engineerPhone : JSVal
  propertyOwnerName : JSVal
  projectName : JSVal
  affectedAreas : JSVal
  location : JSVal
  causationDate : JSVal
  engineerNotes : JSVal
deriving DecidableEq

/-- The weather `data` object, as an insertion-ordered list of string fields
(the backend only ever builds objects whose values are strings). -/
abbrev WeatherData := List (String × String)

/-- Embeds `JSON.stringify(weatherData, null, 2)` on a flat string-valued
object (two-space indentation, one `"key": "value"` line per field). -/
def jsonStringifyPairs (w : WeatherData) : String :=
  "\x7b\n" ++ String.intercalate ",\n"
    (w.map (fun p => "  \"" ++ p.1 ++ "\": \"" ++ p.2 ++ "\"")) ++ "\n\x7d"

/-- Embeds the `weatherSummary` derivation at the top of
`generateSectionPrompt`: a labelled note when `weatherData.note` is truthy,
the JSON serialization when the object has any key, else the empty string. -/
def weatherSummaryOf (weatherData : WeatherData) : String :=
  match List.lookup "note" weatherData with
  | some n =>
      if n ≠ "" then "Weather Data Note: " ++ n
      else if weatherData.length > 0 then jsonStringifyPairs weatherData else ""
  | none => if weatherData.length > 0 then jsonStringifyPairs weatherData else ""

/-- Embeds the `bigSystemInstruction` template literal of
`generateSectionPrompt` (generate-report.js lines 149-163), byte for byte,
with the extracted fact-sheet fields interpolated. -/
def bigSystemInstruction (context : Context) (weatherData : WeatherData) : String :=
  let dateOfLoss := safeString context.dateOfLoss ""
  let investigationDate := safeString context.investigationDate ""
  let claimTypeString := safeArrayJoin context.claimType ", "
  let address := safeString context.address ""
  let clientName := safeString context.clientName ""
  let propertyOwnerName := safeString context.propertyOwnerName ""
  let propertyType := safeString context.propertyType ""
  let propertyAge := safeString context.propertyAge ""
  let currentUse := safeString context.currentUse ""
  let squareFootage := safeString context.squareFootage ""
  let weatherSummary := weatherSummaryOf weatherData
  "\nYou are an expert forensic engineer generating professional report sections. \nUse only the data from user inputs; do not invent details that contradict them.\n\nKey points:\n1. Avoid mentioning roofing types or multi-story details the user did not specify.\n2. Keep Date of Loss ("
    ++ dateOfLoss ++ ") separate from Investigation Date (" ++ investigationDate
    ++ ").\n3. If weather data is missing or the date is in the future, note that briefly rather than \"N/A\".\n4. Avoid placeholders like [e.g., ...], [N/A], [Third Party].\n5. The user’s claim types: "
    ++ claimTypeString ++ ".\n6. Property address: " ++ address
    ++ ".\n7. The client name: " ++ clientName ++ " or property owner: " ++ propertyOwnerName
    ++ ".\n8. Building type: " ++ propertyType ++ ", age: " ++ propertyAge
    ++ ", use: " ++ currentUse ++ ", sq ft: " ++ squareFootage
    ++ ".\n9. Weather Data Summary: " ++ weatherSummary ++ "\n"

/-- Embeds the `basePrompts` table of `generateSectionPrompt` (lines 165-251):
the section-specific instruction for each normalized section id, `none` for
ids outside the table. -/
def basePrompts (context : Context) (weatherData : WeatherData)
    (normalizedSection : String) : Option String :=
  let investigationDate := safeString context.investigationDate ""
  let dateOfLoss := safeString context.dateOfLoss ""
  let claimTypeString := safeArrayJoin context.claimType ", "
  let propertyType := safeString context.propertyType ""
  let propertyAge := safeString context.propertyAge ""
  let constructionType := safeString context.constructionType ""
  let currentUse := safeString context.currentUse ""
  let squareFootage := safeString context.squareFootage ""
  let address := safeString context.address ""
  let engineerName := safeString context.engineerName ""
  let engineerEmail := safeString context.engineerEmail ""
  let engineerLicense := safeString context.engineerLicense ""
  let engineerPhone := safeString context.engineerPhone ""
  let propertyOwnerName := safeString context.propertyOwnerName ""
  let projectName := safeString context.projectName ""
  let affectedAreas := safeArrayJoin context.affectedAreas ", "
  let weatherSummary := weatherSummaryOf weatherData
  if normalizedSection = "introduction" then some
    ("\n\"Introduction\" for a forensic engineering report.\nAddress: " ++ address
      ++ "\nDate of Loss: " ++ dateOfLoss ++ "\nInspection Date: " ++ investigationDate
      ++ "\nClaim Type(s): " ++ claimTypeString
      ++ "\nExplain the purpose of the inspection, referencing hail, wind, or other claimed causes.\n")
  else if normalizedSection = "authorization" then some
    "\n\"Authorization and Scope of Investigation\"\nInclude who authorized it, the scope of work, tasks performed, references if any.\n"
  else if normalizedSection = "background" then some
    ("\n\"Background Information\"\nInclude:\n- Property Type: " ++ propertyType
      ++ "\n- Age: " ++ propertyAge ++ "\n- Construction Type: " ++ constructionType
      ++ "\n- Current Use: " ++ currentUse ++ "\n- Square Footage: " ++ squareFootage
      ++ "\n- Project Name: " ++ projectName ++ "\n- Property Owner: " ++ propertyOwnerName ++ "\n")
  else if normalizedSection = "observations" then some
    ("\n\"Site Observations and Analysis\"\nAffected areas: " ++ affectedAreas
      ++ "\nClaim type(s): " ++ claimTypeString
      ++ "\nInclude only user-indicated details (e.g., if TPO hail damage is indicated, mention it). \n")
  else if normalizedSection = "moisture" then some
    "\n\"Survey\" (Moisture) section.\nDiscuss moisture presence or absence based on user data. \nNo contradictory statements.\n"
  else if normalizedSection = "meteorologist" then some
    ("\n\"Meteorologist Report\" section.\nUse weather data from:\n" ++ weatherSummary
      ++ "\nIf not available, note that.\n")
  else if normalizedSection = "conclusions" then some
    "\n\"Conclusions and Recommendations\"\nSummarize final opinions on the cause of loss and recommended next steps.\n"
  else if normalizedSection = "rebuttal" then some
    "\n\"Rebuttal\" section.\nIf no conflicting or third-party reports are indicated, keep it minimal or note that none exist.\n"
  else if normalizedSection = "limitations" then some
    "\n\"Limitations\" section.\nTypical disclaimers about scope, data reliance, and so forth.\n"
  else if normalizedSection = "tableofcontents" then some
    "\n\"Table of Contents\" in markdown:\n1. Opening Letter\n2. Introduction\n3. Authorization and Scope of Investigation\n4. Background Information\n5. Site Observations and Analysis\n6. Survey\n7. Meteorologist Report\n8. Conclusions and Recommendations\n9. Rebuttal\n10. Limitations\n"
  else if normalizedSection = "openingletter" then some
    ("\n\"Opening Letter\" for the final report.\nInclude:\n- Date of Loss: " ++ dateOfLoss
      ++ "\n- Investigation Date: " ++ investigationDate
      ++ "\n- Claim Type(s): " ++ claimTypeString ++ "\n- Address: " ++ address
      ++ "\n- Greeting\n- Signature block with " ++ engineerName ++ ", license "
      ++ engineerLicense ++ ", email " ++ engineerEmail ++ ", phone " ++ engineerPhone ++ "\n")
  else none

/-- Embeds `generateSectionPrompt` (generate-report.js lines 115-273): the
global instruction block, the explicit statement of the requested section, the
section-specific base prompt (or fallback), and the optional verbatim
`customInstructions` appended under an additional-instructions label. -/
def generateSectionPrompt (sectionName : String) (context : Context)
    (weatherData : WeatherData) (customInstructions : String) : String :=
  let normalizedSection := jsToLower (jsTrim sectionName)
  let fallbackPrompt := "Write a professional section: " ++ sectionName ++ ", using only user inputs."
  let basePrompt := (basePrompts context weatherData normalizedSection).getD fallbackPrompt
  let safeCustom := safeString (.str customInstructions) ""
  let finalPrompt :=
    if safeCustom ≠ "" then basePrompt ++ "\n\nAdditional instructions:\n" ++ safeCustom
    else basePrompt
  "\n" ++ bigSystemInstruction context weatherData ++ "\n\nNow produce the \""
    ++ sectionName ++ "\" section.\n\n" ++ finalPrompt ++ "\n"

/-- Split a character list on a separator character (the pure core of
`String.split` on a single character, used to read an ISO calendar date). -/
def splitOnChar (sep : Char) : List Char → List (List Char)
  | [] => [[]]
  | c :: rest =>
    let r := splitOnChar sep rest
    if c = sep then [] :: r
    else
      match r with
      | [] => [[c]]
      | g :: gs => (c :: g) :: gs

/-- Value of a decimal digit character, `none` for a non-digit. -/
def digitVal (c : Char) : Option Nat :=
  if '0' ≤ c ∧ c ≤ '9' then some (c.toNat - '0'.toNat) else none

/-- Read a non-empty all-digit character list as a natural number. -/
def digitsToNatAux : List Char → Nat → Option Nat
  | [], acc => some acc
  | c :: rest, acc =>
    match digitVal c with
    | some d => digitsToNatAux rest (acc * 10 + d)
    | none => none

/-- Read a non-empty all-digit character list as a natural number
(`none` when empty or containing a non-digit). -/
def digitsToNat : List Char → Option Nat
  | [] => none
  | c :: rest => digitsToNatAux (c :: rest) 0

/-- Days from civil date to the Unix epoch (proleptic Gregorian calendar,
year at least 1).  Day values beyond the month length overflow into the
following month, exactly as JavaScript `MakeDay` does. -/
def epochDaysOf (y m d : Nat) : Int :=
  let yb := y - (if m ≤ 2 then 1 else 0)
  let era := yb / 400
  let yoe := yb % 400
  let mp := (m + 9) % 12
  let doy := (153 * mp + 2) / 5 + (d - 1)
  let doe := yoe * 365 + yoe / 4 - yoe / 100 + doy
  (era * 146097 + doe : Int) - 719468

/-- Civil date (year, month, day) of a day count relative to the Unix epoch. -/
def civilFromDays (z : Int) : Nat × Nat × Nat :=
  let n := (z + 719468).toNat
  let era := n / 146097
  let doe := n % 146097
  let yoe := (doe - doe / 1460 + doe / 36524 - doe / 146096) / 365
  let y := yoe + era * 400
  let doy := doe - (365 * yoe + yoe / 4 - yoe / 100)
  let mp := (5 * doy + 2) / 153
  let d := doy - (153 * mp + 2) / 5 + 1
  let m := if mp < 10 then mp + 3 else mp - 9
  (if m ≤ 2 then y + 1 else y, m, d)

/-- Milliseconds per day. -/
def msPerDay : Int := 86400000

/-- Two-digit zero-padded decimal. -/
def pad2 (n : Nat) : String := if n < 10 then "0" ++ toString n else toString n

/-- Four-digit zero-padded decimal. -/
def pad4 (n : Nat) : String :=
  if n < 10 then "000" ++ toString n
  else if n < 100 then "00" ++ toString n
  else if n < 1000 then "0" ++ toString n
  else toString n

/-- Embeds `dateObj.toISOString().split('T')[0]` on a millisecond timestamp:
the ISO calendar date `YYYY-MM-DD` of the UTC day containing the instant. -/
def isoDateOf (t : Int) : String :=
  let c := civilFromDays (Int.fdiv t msPerDay)
  pad4 c.1 ++ "-" ++ pad2 c.2.1 ++ "-" ++ pad2 c.2.2

/-- Embeds `safeParseDate` on the ISO calendar-date grammar `YYYY-MM-DD`
(the format the date inputs of the form produce and the handler re-emits):
the UTC-midnight millisecond timestamp of that date, `none` when the string
is empty or does not fit the grammar.  Other JavaScript date formats are
outside the modelled domain. -/
def parseISODate (s : String) : Option Int :=
  match splitOnChar '-' s.data with
  | [ys, ms, ds] =>
    if ys.length = 4 ∧ ms.length = 2 ∧ ds.length = 2 then
      match digitsToNat ys, digitsToNat ms, digitsToNat ds with
      | some y, some m, some d =>
        if 1 ≤ y ∧ 1 ≤ m ∧ m ≤ 12 ∧ 1 ≤ d ∧ d ≤ 31 then
          some (epochDaysOf y m d * msPerDay)
        else none
      | _, _, _ => none
    else none
  | _ => none

/-- Embeds `safeParseDate` (generate-report.js lines 41-46). -/
def safeParseDate (s : String) : Option Int :=
  if s = "" then none else parseISODate s

/-- `safeParseDate(userContext?.dateOfLoss)` on a raw context field:
only a string parses. -/
def safeParseDateVal : JSVal → Option Int
  | .str s => safeParseDate s
  | _ => none

/-- Does the character list contain the pattern as a contiguous sublist? -/
def listContainsSub (s pat : List Char) : Bool :=
  match s with
  | [] => pat.isEmpty
  | c :: rest => pat.isPrefixOf (c :: rest) || listContainsSub rest pat

/-- Does the string contain the pattern as a substring?  Embeds JavaScript
`String.prototype.includes`. -/
def strContainsSub (s pat : String) : Bool :=
  listContainsSub s.data pat.data

/-- The `day` object of a weather-history response, with the fields the
function reads.  Numeric fields are modelled as integers. -/
structure DayData where
  maxtemp_f : Int
  mintemp_f : Int
  avgtemp_f : Int
  totalprecip_in : Int
  avghumidity : Int
  conditionText : String
deriving DecidableEq

/-- One hourly sample of a weather-history response. -/
structure HourSample where
  time : String
  gust_mph : Int
deriving DecidableEq

/-- Outcome of the one external weather-history lookup: a parsed response or
a thrown error with its message. -/
inductive LookupOutcome where
  | ok (dayData : DayData) (hourlyData : List HourSample)
  | fail (message : String)

/-- Embeds `Math.max(...list)`: `none` stands for the empty-spread result
(`-Infinity`). -/
def mathMaxList : List Int → Option Int
  | [] => none
  | x :: xs =>
    match mathMaxList xs with
    | none => some x
    | some m => some (max x m)

/-- Embeds the normalization of a successful weather-history response
(generate-report.js lines 84-103): temperature extremes, the maximum hourly
wind gust with the time of the first hour attaining it, precipitation,
humidity, condition text, and the two substring-derived flags. -/
def normalizeWeather (dayData : DayData) (hourlyData : List HourSample) : WeatherData :=
  let maxWindGust := mathMaxList (hourlyData.map (fun h => h.gust_mph))
  let gustStr :=
    match maxWindGust with
    | some g => toString g ++ " mph"
    | none => "-Infinity mph"
  let timeStr :=
    match maxWindGust with
    | some g => ((hourlyData.find? (fun h => h.gust_mph == g)).map (fun h => h.time)).getD ""
    | none => ""
  [("maxTemp", toString dayData.maxtemp_f ++ "°F"),
   ("minTemp", toString dayData.mintemp_f ++ "°F"),
   ("avgTemp", toString dayData.avgtemp_f ++ "°F"),
   ("maxWindGust", gustStr),
   ("maxWindTime", timeStr),
   ("totalPrecip", toString dayData.totalprecip_in ++ " inches"),
   ("humidity", toString dayData.avghumidity ++ "%"),
   ("conditions", dayData.conditionText),
   ("hailPossible", if strContainsSub dayData.conditionText.toLower "hail" then "Yes" else "No"),
   ("thunderstorm", if strContainsSub dayData.conditionText.toLower "thunder" then "Yes" else "No")]

/-- Result object of `getWeatherData`: `success` flag, the `data` object, and
the error message present only on lookup failure. -/
structure WeatherResult where
  success : Bool
  data : WeatherData
  error : Option String
deriving DecidableEq

/-- Embeds `getWeatherData` (generate-report.js lines 52-108).  `lookup` is
the opaque external weather-history call, `now` the current instant in
milliseconds (`new Date()`).  The boolean records whether the external call
was made. -/
def getWeatherData (lookup : String → String → LookupOutcome) (now : Int)
    (location dateString : String) : WeatherResult × Bool :=
  if location = "" ∨ dateString = "" then (⟨true, [], none⟩, false)
  else
    match safeParseDate dateString with
    | none => (⟨true, [], none⟩, false)
    | some t =>
      if t > now then
        (⟨true, [("note", "Weather data not found for a future date: " ++ isoDateOf t)], none⟩, false)
      else
        match lookup location (isoDateOf t) with
        | .ok dayData hourlyData => (⟨true, normalizeWeather dayData hourlyData, none⟩, true)
        | .fail message => (⟨false, [], some message⟩, true)

/-- The fixed weather-exclusion list of the handler. -/
def excludedSections : List String := ["tableofcontents", "openingletter", "introduction"]

/-- Embeds the weather-fetch step of the handler (generate-report.js lines
294-303): skip for excluded sections, otherwise attempt the lookup only when
`dateOfLoss` parses and `address` is a truthy string.  The boolean records
whether `getWeatherData` performed the external call. -/
def handlerWeather (lookup : String → String → LookupOutcome) (now : Int)
    (sectionName : String) (context : Context) : WeatherResult × Bool :=
  let lowerSection := jsToLower (jsTrim sectionName)
  if excludedSections.contains lowerSection then (⟨true, [], none⟩, false)
  else
    match safeParseDateVal context.dateOfLoss with
    | some t =>
      match context.address with
      | .str a => if a ≠ "" then getWeatherData lookup now a (isoDateOf t) else (⟨true, [], none⟩, false)
      | _ => (⟨true, [], none⟩, false)
    | none => (⟨true, [], none⟩, false)

/-- What the handler computes for a request before calling the generation
service: the assembled prompt, the echoed section name, the weather data of
the response body, and whether a weather lookup call was made. -/
structure HandlerOutcome where
  prompt : String
  sectionName : String
  weatherData : WeatherData
  weatherCalled : Bool

/-- Embeds the request processing of `exports.handler` (generate-report.js
lines 290-329) up to the opaque generation call: fetch weather per the
exclusion and truthiness rules, then assemble the prompt from the request
context and the fetched `weatherResult.data`. -/
def handlerProcess (lookup : String → String → LookupOutcome) (now : Int)
    (sectionName : String) (context : Context) (customInstructions : String) :
    HandlerOutcome :=
  let wr := handlerWeather lookup now sectionName context
  ⟨generateSectionPrompt sectionName context wr.1.data customInstructions,
    sectionName, wr.1.data, wr.2⟩

/-- The front-end claim form fields (index.html lines 347-365), all strings
except the checkbox-derived affected-areas list. -/
structure ClaimForm where
  investigationDate : String
  clientName : String
  propertyType : String
  propertyAge : String
  constructionType : String
  currentUse : String
  squareFootage : String
  claimType : String
  dateOfLoss : String
  causationDate : String
  location : String
  affectedAreas : List String
  engineerNotes : String

/-- Embeds the `formContext` object the form-submission handler builds:
note that the property address is stored under `location` and no `address`
key is ever set, and that `claimType` is the single selected option string. -/
def mkFormContext (form : ClaimForm) : Context where
  investigationDate := .str form.investigationDate
  dateOfLoss := .str form.dateOfLoss
  claimType := .str form.claimType
  propertyType := .str form.propertyType
  propertyAge := .str form.propertyAge
  constructionType := .str form.constructionType
  currentUse := .str form.currentUse
  squareFootage := .str form.squareFootage
  address := .undef
  clientName := .str form.clientName
  engineerName := .undef
  engineerEmail := .undef
  engineerLicense := .undef
  engineerPhone := .undef
  propertyOwnerName := .undef
  projectName := .undef
  affectedAreas := .arr form.affectedAreas
  location := .str form.location
  causationDate := .str (if form.causationDate = "" then form.dateOfLoss else form.causationDate)
  engineerNotes := .str form.engineerNotes

/-- One entry of the front-end section catalog. -/
structure SectionSpec where
  id : String
  title : String
deriving DecidableEq

/-- Embeds `reportSections` (index.html lines 261-270): the fixed ordered
catalog driving the workflow — eight sections. -/
def reportSections : List SectionSpec :=
  [⟨"authorization", "Authorization and Scope of Investigation"⟩,
   ⟨"background", "Background Information"⟩,
   ⟨"observations", "Site Observations and Analysis"⟩,
   ⟨"moisture", "Roof Moisture Survey"⟩,
   ⟨"meteorologist", "Meteorologist Report"⟩,
   ⟨"conclusions", "Conclusions and Recommendations"⟩,
   ⟨"rebuttal", "Rebuttal"⟩,
   ⟨"limitations", "Limitations"⟩]

/-- The mutable front-end session state: the workflow cursor
`currentSectionIndex` and the `generatedSections` object (an
insertion-ordered map from section id to accepted/generated text). -/
structure UIState where
  currentSectionIndex : Nat
  generatedSections : List (String × String)
deriving DecidableEq

/-- Result of one `generateSection` round trip: the returned text, or a
thrown error. -/
inductive GenOutcome where
  | ok (content : String)
  | fail

/-- JavaScript object property assignment `generatedSections[id] = content`:
overwrite in place, or append preserving insertion order. -/
def setSection (m : List (String × String)) (k v : String) : List (String × String) :=
  if m.any (fun p => p.1 = k) then m.map (fun p => if p.1 = k then (k, v) else p)
  else m ++ [(k, v)]

/-- Embeds `compileFinalReport` (index.html lines 333-344): for each catalog
section in order, a markdown heading with the display title followed by the
stored content when that content is truthy, joined into one document. -/
def compileFinalReport (generatedSections : List (String × String)) : String :=
  String.join (reportSections.map (fun sec =>
    match List.lookup sec.id generatedSections with
    | some content =>
        if content ≠ "" then "# " ++ sec.title ++ "\n\n" ++ content ++ "\n\n" else ""
    | none => ""))

/-- Embeds the `acceptSection` click handler (index.html lines 406-425):
increment the cursor; at or past the end, leave state for compilation;
otherwise generate the next section and store it, and on generation failure
revert the cursor, leaving every stored section untouched. -/
def acceptStep (st : UIState) (gen : String → GenOutcome) : UIState :=
  let idx := st.currentSectionIndex + 1
  if idx ≥ reportSections.length then
    { currentSectionIndex := idx, generatedSections := st.generatedSections }
  else
    match gen ((reportSections.getD idx ⟨"", ""⟩).id) with
    | .ok content =>
        { currentSectionIndex := idx,
          generatedSections := setSection st.generatedSections ((reportSections.getD idx ⟨"", ""⟩).id) content }
    | .fail => { currentSectionIndex := idx - 1, generatedSections := st.generatedSections }

/-- Embeds the form-submission handler after context capture (index.html
lines 371-379): generate the first catalog section and store it on success;
on failure the state is untouched. -/
def startSession (gen : String → GenOutcome) : UIState :=
  match gen ((reportSections.getD 0 ⟨"", ""⟩).id) with
  | .ok content =>
      { currentSectionIndex := 0,
        generatedSections := setSection [] ((reportSections.getD 0 ⟨"", ""⟩).id) content }
  | .fail => { currentSectionIndex := 0, generatedSections := [] }

/-- Press the accept button `n` times in sequence. -/
def pressAcceptTimes (gen : String → GenOutcome) : Nat → UIState → UIState
  | 0, st => st
  | n + 1, st => pressAcceptTimes gen n (acceptStep st gen)

/-- The compiled document of a session in which the operator starts the
workflow and accepts every section in catalog order, the generation service
returning `f id` for each section id: eight accept presses after the start,
the last one reaching past the final index and triggering compilation. -/
def acceptAllCompiled (f : String → String) : String :=
  compileFinalReport
    (pressAcceptTimes (fun id => GenOutcome.ok (f id)) 8
      (startSession (fun id => GenOutcome.ok (f id)))).generatedSections

/-- A context field is blank or absent: `undefined`, a whitespace-only
string, or an empty array. -/
def blankVal : JSVal → Bool
  | .undef => true
  | .str s => jsTrim s == ""
  | .arr l => l.isEmpty

/-- Every field of the fact sheet is blank or absent. -/
def blankContextP (c : Context) : Bool :=
  blankVal c.investigationDate && blankVal c.dateOfLoss && blankVal c.claimType &&
  blankVal c.propertyType && blankVal c.propertyAge && blankVal c.constructionType &&
  blankVal c.currentUse && blankVal c.squareFootage && blankVal c.address &&
  blankVal c.clientName && blankVal c.engineerName && blankVal c.engineerEmail &&
  blankVal c.engineerLicense && blankVal c.engineerPhone && blankVal c.propertyOwnerName &&
  blankVal c.projectName && blankVal c.affectedAreas && blankVal c.location &&
  blankVal c.causationDate && blankVal c.engineerNotes

/-- The canonical all-absent fact sheet (every field `undefined`). -/
def blankContext : Context :=
  ⟨.undef, .undef, .undef, .undef, .undef, .undef, .undef, .undef, .undef, .undef,
   .undef, .undef, .undef, .undef, .undef, .undef, .undef, .undef, .undef, .undef⟩

/-- The fixed rule line of the global instruction block that itself names the
forbidden placeholder tokens (generate-report.js line 157). -/
def rule4Line : String := "4. Avoid placeholders like [e.g., ...], [N/A], [Third Party]."

/-- The fixed rule line of the global instruction block that quotes the
forbidden `"N/A"` token (generate-report.js line 156). -/
def rule3Line : String := "3. If weather data is missing or the date is in the future, note that briefly rather than \"N/A\"."

/-- Delete every occurrence of a non-empty pattern from a character list
(fuelled; fuel at least the list length deletes all occurrences). -/
def stripOccurrences : Nat → List Char → List Char → List Char
  | 0, s, _ => s
  | _ + 1, [], _ => []
  | fuel + 1, c :: rest, pat =>
    if pat ≠ [] ∧ pat.isPrefixOf (c :: rest) then
      stripOccurrences fuel ((c :: rest).drop pat.length) pat
    else c :: stripOccurrences fuel rest pat

/-- After deleting the two fixed anti-placeholder rule lines of the global
instruction block, the text has no opening bracket and no occurrence of the
literal `N/A`. -/
def placeholderFreeOutsideRule (p : String) : Bool :=
  let q1 := stripOccurrences p.data.length p.data rule4Line.data
  let q := stripOccurrences q1.length q1 rule3Line.data
  !(listContainsSub q ("N/A".data)) && q.all (fun c => c ≠ '[')

/-- The section ids of the backend prompt catalog (the keys of
`basePrompts`). -/
def catalogPromptIds : List String :=
  ["introduction", "authorization", "background", "observations", "moisture",
   "meteorologist", "conclusions", "rebuttal", "limitations", "tableofcontents",
   "openingletter"]

/-- A concrete filled-in claim form, as the front-end would collect it. -/
def sampleForm : ClaimForm :=
  ⟨"2024-03-10", "Acme Insurance", "commercial", "12", "Steel frame with brick veneer",
   "Office space", "20000", "hail", "2024-03-01", "", "456 Oak Ave, Dallas, TX 75201",
   ["Roof", "Siding"], "Observed fractured shingles on the south slope."⟩

/-- A concrete hourly weather series: the maximum gust 35 is attained first
at index 1 and again at index 2. -/
def demoHours : List HourSample :=
  [⟨"2023-04-01 00:00", 20⟩, ⟨"2023-04-01 01:00", 35⟩,
   ⟨"2023-04-01 02:00", 35⟩, ⟨"2023-04-01 03:00", 12⟩]

/-- A concrete day summary for the demo lookup response. -/
def demoDay : DayData := ⟨70, 50, 60, 1, 80, "Thundery outbreaks possible"⟩

/-- A blank-or-absent field coerces to the fallback. -/
theorem safeString_blank (v : JSVal) (fb : String) (h : blankVal v = true) :
    safeString v fb = fb := by
  cases v with
  | undef => rfl
  | str s =>
    simp only [blankVal, beq_iff_eq] at h
    simp [safeString, h]
  | arr l => rfl

/-- A blank-or-absent field joins to the empty string. -/
theorem safeArrayJoin_blank (v : JSVal) (sep : String) (h : blankVal v = true) :
    safeArrayJoin v sep = "" := by
  cases v with
  | undef => rfl
  | str s => rfl
  | arr l =>
    simp only [blankVal, List.isEmpty_iff] at h
    simp [safeArrayJoin, h]

/-- An absent field coerces to the fallback. -/
theorem safeString_undef (fb : String) : safeString JSVal.undef fb = fb := rfl

/-- An absent field joins to the empty string. -/
theorem safeArrayJoin_undef (sep : String) : safeArrayJoin JSVal.undef sep = "" := rfl

/-- For an all-blank fact sheet the assembled prompt does not depend on the
particular blank values: it equals the prompt for the all-absent sheet. -/
theorem generateSectionPrompt_blank (c : Context) (sid : String)
    (h : blankContextP c = true) :
    generateSectionPrompt sid c [] "" = generateSectionPrompt sid blankContext [] "" := by
  simp only [blankContextP, Bool.and_eq_true, and_assoc] at h
  obtain ⟨h1, h2, h3, h4, h5, h6, h7, h8, h9, h10, h11, h12, h13, h14, h15, h16,
    h17, h18, h19, h20⟩ := h
  simp only [generateSectionPrompt, bigSystemInstruction, basePrompts, blankContext,
    safeString_blank _ _ h1, safeString_blank _ _ h2, safeArrayJoin_blank _ _ h3,
    safeString_blank _ _ h4, safeString_blank _ _ h5, safeString_blank _ _ h6,
    safeString_blank _ _ h7, safeString_blank _ _ h8, safeString_blank _ _ h9,
    safeString_blank _ _ h10, safeString_blank _ _ h11, safeString_blank _ _ h12,
    safeString_blank _ _ h13, safeString_blank _ _ h14, safeString_blank _ _ h15,
    safeString_blank _ _ h16, safeArrayJoin_blank _ _ h17, safeString_undef,
    safeArrayJoin_undef]

/-- A list is a Boolean prefix of itself followed by anything. -/
theorem isPrefixOf_self_append (p t : List Char) : p.isPrefixOf (p ++ t) = true := by
  induction p with
  | nil => simp [List.isPrefixOf]
  | cons c cs ih => simp [List.isPrefixOf, ih]

/-- A Boolean prefix is a contained sublist. -/
theorem listContainsSub_of_pre (s pat : List Char) (h : pat.isPrefixOf s = true) :
    listContainsSub s pat = true := by
  cases s with
  | nil =>
    cases pat with
    | nil => rfl
    | cons a as => simp [List.isPrefixOf] at h
  | cons c cs => simp [listContainsSub, h]

/-- Containment is preserved by a cons. -/
theorem listContainsSub_cons (c : Char) (s pat : List Char)
    (h : listContainsSub s pat = true) : listContainsSub (c :: s) pat = true := by
  simp only [listContainsSub, Bool.or_eq_true]
  exact Or.inr h

/-- Containment is preserved by prepending. -/
theorem listContainsSub_append_left (s t pat : List Char)
    (h : listContainsSub t pat = true) : listContainsSub (s ++ t) pat = true := by
  induction s with
  | nil => simpa using h
  | cons c cs ih =>
    simp only [List.cons_append, listContainsSub, Bool.or_eq_true]
    exact Or.inr ih

/-- A middle segment is contained in the surrounding concatenation. -/
theorem listContainsSub_middle (pre pat post : List Char) :
    listContainsSub (pre ++ (pat ++ post)) pat = true :=
  listContainsSub_append_left pre (pat ++ post) pat
    (listContainsSub_of_pre (pat ++ post) pat (isPrefixOf_self_append pat post))

/-- A two-piece leading segment is contained in the concatenation that
continues past it. -/
theorem listContainsSub_mid2 (p q r : List Char) :
    listContainsSub (p ++ (q ++ r)) (p ++ q) = true :=
  listContainsSub_of_pre _ _
    (by rw [← List.append_assoc]; exact isPrefixOf_self_append _ _)

/-- `mathMaxList` returns `none` exactly on the empty list. -/
theorem mathMaxList_eq_none (l : List Int) : mathMaxList l = none ↔ l = [] := by
  cases l with
  | nil => simp [mathMaxList]
  | cons x xs =>
    cases h : mathMaxList xs <;> simp [mathMaxList, h]

/-- Every element is bounded by the `mathMaxList` result. -/
theorem mathMaxList_le (l : List Int) (M : Int) (h : mathMaxList l = some M) :
    ∀ x ∈ l, x ≤ M := by
  induction l generalizing M with
  | nil => simp [mathMaxList] at h
  | cons x xs ih =>
    intro y hy
    rw [mathMaxList] at h
    cases hxs : mathMaxList xs with
    | none =>
      rw [hxs] at h
      have hnil := (mathMaxList_eq_none xs).mp hxs
      subst hnil
      simp only [Option.some.injEq] at h
      subst h
      rcases List.mem_cons.mp hy with h' | h'
      · exact le_of_eq h'
      · simp at h'
    | some m =>
      rw [hxs] at h
      simp only [Option.some.injEq] at h
      subst h
      rcases List.mem_cons.mp hy with h' | h'
      · exact h' ▸ le_max_left x m
      · exact (ih m hxs y h').trans (le_max_right x m)

/-- The `mathMaxList` result is attained by some element. -/
theorem mathMaxList_mem (l : List Int) (M : Int) (h : mathMaxList l = some M) :
    M ∈ l := by
  induction l generalizing M with
  | nil => simp [mathMaxList] at h
  | cons x xs ih =>
    rw [mathMaxList] at h
    cases hxs : mathMaxList xs with
    | none =>
      rw [hxs] at h
      simp only [Option.some.injEq] at h
      subst h
      exact List.mem_cons_self x xs
    | some m =>
      rw [hxs] at h
      simp only [Option.some.injEq] at h
      subst h
      rcases max_choice x m with hc | hc <;> rw [hc]
      · exact List.mem_cons_self x xs
      · exact List.mem_cons_of_mem x (ih m hxs)

/-- `List.find?` returns the first element satisfying the predicate: its
index witnesses the hit and every earlier index misses. -/
theorem find?_first_index {α : Type} (p : α → Bool) (l : List α) (a : α)
    (h : l.find? p = some a) :
    ∃ i : Nat, ∃ hi : i < l.length, l.get ⟨i, hi⟩ = a ∧ p a = true ∧
      ∀ j : Nat, ∀ hj : j < l.length, j < i → p (l.get ⟨j, hj⟩) = false := by
  induction l with
  | nil => simp [List.find?] at h
  | cons c cs ih =>
    cases hp : p c with
    | true =>
      rw [List.find?_cons_of_pos _ hp] at h
      simp only [Option.some.injEq] at h
      subst h
      exact ⟨0, by simp, rfl, hp, fun j hj hji => absurd hji (Nat.not_lt_zero j)⟩
    | false =>
      rw [List.find?_cons_of_neg _ (by simp [hp])] at h
      obtain ⟨i, hi, hget, hpa, hfirst⟩ := ih h
      refine ⟨i + 1, by simpa using Nat.succ_lt_succ hi, by simpa using hget, hpa, ?_⟩
      intro j hj hji
      cases j with
      | zero => simpa using hp
      | succ j' =>
        have hj' : j' < cs.length := by simpa using hj
        have := hfirst j' hj' (Nat.lt_of_succ_lt_succ hji)
        simpa using this

/-- C9: when the location is absent, the date string is absent, or the date
string fails to parse, `getWeatherData` returns `{success: true, data: {}}`
and makes no external call. -/
theorem missing_inputs_empty_summary (lookup : String → String → LookupOutcome)
    (now : Int) (location dateString : String)
    (h : location = "" ∨ dateString = "" ∨ safeParseDate dateString = none) :
    getWeatherData lookup now location dateString = (⟨true, [], none⟩, false) := by
  unfold getWeatherData
  rcases h with h | h | h
  · rw [if_pos (Or.inl h)]
  · rw [if_pos (Or.inr h)]
  · by_cases h2 : location = "" ∨ dateString = ""
    · rw [if_pos h2]
    · rw [if_neg h2, h]

/-- Witness for C9 at a concrete unparsable date. -/
theorem missing_inputs_empty_summary_witness :
    getWeatherData (fun _ _ => LookupOutcome.fail "err") 0 "1600 Elm St" "not-a-date" =
      (⟨true, [], none⟩, false) :=
  missing_inputs_empty_summary (fun _ _ => LookupOutcome.fail "err") 0 "1600 Elm St"
    "not-a-date" (Or.inr (Or.inr (by decide)))

/-- C5: for a non-empty location and a loss date parsing strictly after the
current instant, `getWeatherData` returns a note-only summary carrying the
ISO calendar date, with `success = true` and no external call. -/
theorem future_date_note_no_lookup (lookup : String → String → LookupOutcome)
    (now : Int) (location dateString : String) (t : Int)
    (hloc : location ≠ "") (hparse : safeParseDate dateString = some t)
    (hfut : t > now) :
    getWeatherData lookup now location dateString =
      (⟨true, [("note", "Weather data not found for a future date: " ++ isoDateOf t)],
        none⟩, false) := by
  have hds : dateString ≠ "" := by
    intro e
    rw [e] at hparse
    simp [safeParseDate] at hparse
  simp only [getWeatherData, hparse]
  rw [if_neg (by push_neg; exact ⟨hloc, hds⟩), if_pos hfut]

/-- Witness for C5 at the loss date 2099-01-01 and a 2025 current instant;
the emitted note carries the literal `2099-01-01`. -/
theorem future_date_note_no_lookup_witness :
    getWeatherData (fun _ _ => LookupOutcome.fail "err") 1760227200000
        "123 Main St" "2099-01-01" =
      (⟨true, [("note", "Weather data not found for a future date: 2099-01-01")],
        none⟩, false) := by
  have h := future_date_note_no_lookup (fun _ _ => LookupOutcome.fail "err")
    1760227200000 "123 Main St" "2099-01-01" (epochDaysOf 2099 1 1 * msPerDay)
    (by decide) (by decide) (by decide)
  rw [h]
  decide

/-- C3: a request context without an `address` property (as every front-end
request is, the form storing the property address under `location`) makes the
handler skip the weather lookup and echo an empty weather object, for every
section. -/
theorem no_address_skips_weather (lookup : String → String → LookupOutcome) (now : Int)
    (sectionName : String) (context : Context) (customInstructions : String)
    (form : ClaimForm) (haddr : context.address = JSVal.undef) :
    (mkFormContext form).address = JSVal.undef ∧
    (handlerProcess lookup now sectionName context customInstructions).weatherCalled = false ∧
    (handlerProcess lookup now sectionName context customInstructions).weatherData = [] := by
  have hw : handlerWeather lookup now sectionName context = (⟨true, [], none⟩, false) := by
    simp only [handlerWeather, haddr]
    split
    · rfl
    · split
      · rfl
      · rfl
  exact ⟨rfl, by simp [handlerProcess, hw], by simp [handlerProcess, hw]⟩

/-- Witness for C3 at the meteorologist section and a concrete form. -/
theorem no_address_skips_weather_witness :
    (mkFormContext sampleForm).address = JSVal.undef ∧
    (handlerProcess (fun _ _ => LookupOutcome.fail "err") 0 "meteorologist"
      blankContext "").weatherCalled = false ∧
    (handlerProcess (fun _ _ => LookupOutcome.fail "err") 0 "meteorologist"
      blankContext "").weatherData = [] :=
  no_address_skips_weather (fun _ _ => LookupOutcome.fail "err") 0 "meteorologist"
    blankContext "" sampleForm rfl

/-- C6: a section whose trimmed, lower-cased id is on the fixed exclusion
list never triggers a weather lookup; the prompt is assembled with the empty
weather object and the response echoes it. -/
theorem excluded_sections_skip_weather (lookup : String → String → LookupOutcome)
    (now : Int) (sectionName : String) (context : Context) (customInstructions : String)
    (hmem : jsToLower (jsTrim sectionName) ∈ excludedSections) :
    (handlerProcess lookup now sectionName context customInstructions).weatherCalled = false ∧
    (handlerProcess lookup now sectionName context customInstructions).weatherData = [] ∧
    (handlerProcess lookup now sectionName context customInstructions).prompt =
      generateSectionPrompt sectionName context [] customInstructions := by
  have hex : excludedSections.contains (jsToLower (jsTrim sectionName)) = true :=
    List.elem_iff.mpr hmem
  have hw : handlerWeather lookup now sectionName context = (⟨true, [], none⟩, false) := by
    simp only [handlerWeather]
    rw [if_pos hex]
  exact ⟨by simp [handlerProcess, hw], by simp [handlerProcess, hw],
    by simp [handlerProcess, hw]⟩

/-- Witness for C6 at the section name `TableOfContents ` (mixed case with
trailing whitespace). -/
theorem excluded_sections_skip_weather_witness :
    (handlerProcess (fun _ _ => LookupOutcome.fail "err") 0 "TableOfContents "
      blankContext "").weatherCalled = false ∧
    (handlerProcess (fun _ _ => LookupOutcome.fail "err") 0 "TableOfContents "
      blankContext "").weatherData = [] ∧
    (handlerProcess (fun _ _ => LookupOutcome.fail "err") 0 "TableOfContents "
      blankContext "").prompt =
      generateSectionPrompt "TableOfContents " blankContext [] "" :=
  excluded_sections_skip_weather (fun _ _ => LookupOutcome.fail "err") 0
    "TableOfContents " blankContext "" (by decide)

/-- C10: the front-end stores the selected claim type as a single string,
`safeArrayJoin` maps every non-array to the empty string, so the claim-type
text interpolated into every prompt is empty and the prompt does not depend
on the selected claim type at all. -/
theorem claim_type_string_dropped (form : ClaimForm) (v : String) (sectionName : String)
    (weatherData : WeatherData) (customInstructions : String) :
    safeArrayJoin (JSVal.str v) ", " = "" ∧
    safeArrayJoin (mkFormContext form).claimType ", " = "" ∧
    generateSectionPrompt sectionName (mkFormContext { form with claimType := v })
        weatherData customInstructions =
      generateSectionPrompt sectionName (mkFormContext { form with claimType := "" })
        weatherData customInstructions :=
  ⟨rfl, rfl, rfl⟩

/-- C4: accepting from `Reviewing(i, content)` with a failing generation of
section `i+1` leaves the session state exactly as it was: the cursor is back
at `i` and every stored section, including section `i`, is unchanged. -/
theorem accept_failure_reverts_state (st : UIState) (gen : String → GenOutcome)
    (hlt : st.currentSectionIndex + 1 < reportSections.length)
    (hfail : gen ((reportSections.getD (st.currentSectionIndex + 1) ⟨"", ""⟩).id) =
      GenOutcome.fail) :
    acceptStep st gen = st := by
  simp only [acceptStep]
  rw [if_neg (Nat.not_le.mpr hlt), hfail]
  simp

/-- Witness for C4: accept after the first section with a failing generator. -/
theorem accept_failure_reverts_state_witness :
    acceptStep ⟨0, [("authorization", "Authorized by the property owner.")]⟩
        (fun _ => GenOutcome.fail) =
      ⟨0, [("authorization", "Authorized by the property owner.")]⟩ :=
  accept_failure_reverts_state ⟨0, [("authorization", "Authorized by the property owner.")]⟩
    (fun _ => GenOutcome.fail) (by decide) rfl

/-- C7: a non-blank `customInstructions` string is appended verbatim under
the additional-instructions label, and the global instruction block of the
prompt is the identical `bigSystemInstruction` text produced with empty
custom instructions — the feedback extends only the section-specific tail. -/
theorem custom_instructions_appended_verbatim (sectionName : String) (context : Context)
    (weatherData : WeatherData) (customInstructions : String)
    (h : jsTrim customInstructions ≠ "") :
    generateSectionPrompt sectionName context weatherData customInstructions =
      "\n" ++ bigSystemInstruction context weatherData ++ "\n\nNow produce the \""
        ++ sectionName ++ "\" section.\n\n"
        ++ ((basePrompts context weatherData (jsToLower (jsTrim sectionName))).getD
              ("Write a professional section: " ++ sectionName ++ ", using only user inputs.")
            ++ "\n\nAdditional instructions:\n" ++ customInstructions) ++ "\n" ∧
    generateSectionPrompt sectionName context weatherData "" =
      "\n" ++ bigSystemInstruction context weatherData ++ "\n\nNow produce the \""
        ++ sectionName ++ "\" section.\n\n"
        ++ (basePrompts context weatherData (jsToLower (jsTrim sectionName))).getD
            ("Write a professional section: " ++ sectionName ++ ", using only user inputs.")
        ++ "\n" ∧
    strContainsSub (generateSectionPrompt sectionName context weatherData customInstructions)
      ("Additional instructions:\n" ++ customInstructions) = true := by
  have hcust : customInstructions ≠ "" := by
    intro e
    rw [e] at h
    exact h rfl
  have e1 : generateSectionPrompt sectionName context weatherData customInstructions =
      "\n" ++ bigSystemInstruction context weatherData ++ "\n\nNow produce the \""
        ++ sectionName ++ "\" section.\n\n"
        ++ ((basePrompts context weatherData (jsToLower (jsTrim sectionName))).getD
              ("Write a professional section: " ++ sectionName ++ ", using only user inputs.")
            ++ "\n\nAdditional instructions:\n" ++ customInstructions) ++ "\n" := by
    simp only [generateSectionPrompt, safeString]
    rw [if_pos h, if_pos hcust]
  have e2 : generateSectionPrompt sectionName context weatherData "" =
      "\n" ++ bigSystemInstruction context weatherData ++ "\n\nNow produce the \""
        ++ sectionName ++ "\" section.\n\n"
        ++ (basePrompts context weatherData (jsToLower (jsTrim sectionName))).getD
            ("Write a professional section: " ++ sectionName ++ ", using only user inputs.")
        ++ "\n" := by
    simp only [generateSectionPrompt, safeString]
    rw [if_neg (by decide)]
  refine ⟨e1, e2, ?_⟩
  rw [e1]
  unfold strContainsSub
  simp only [String.data_append, List.append_assoc]
  apply listContainsSub_append_left
  apply listContainsSub_append_left
  apply listContainsSub_append_left
  apply listContainsSub_append_left
  apply listContainsSub_append_left
  apply listContainsSub_append_left
  apply listContainsSub_cons
  apply listContainsSub_cons
  exact listContainsSub_mid2 _ _ _

/-- Witness for C7 with concrete regeneration feedback. -/
theorem custom_instructions_appended_verbatim_witness :
    jsTrim "Focus on the attic." ≠ "" ∧
    strContainsSub (generateSectionPrompt "moisture" blankContext [] "Focus on the attic.")
      ("Additional instructions:\n" ++ "Focus on the attic.") = true :=
  ⟨by decide,
    (custom_instructions_appended_verbatim "moisture" blankContext [] "Focus on the attic."
      (by decide)).2.2⟩

/-- C8: on a successful lookup with a non-empty hourly series, the returned
`maxWindGust` is the maximum hourly gust with the ` mph` suffix, and
`maxWindTime` is the time of the chronologically first hour attaining that
maximum. -/
theorem max_gust_and_first_time (now : Int) (location dateString : String) (t M : Int)
    (dayData : DayData) (hourlyData : List HourSample)
    (hloc : location ≠ "") (hparse : safeParseDate dateString = some t)
    (hpast : ¬ t > now)
    (hmax : mathMaxList (hourlyData.map (fun h => h.gust_mph)) = some M) :
    List.lookup "maxWindGust"
        ((getWeatherData (fun _ _ => LookupOutcome.ok dayData hourlyData) now
          location dateString).1).data = some (toString M ++ " mph") ∧
    (∀ h ∈ hourlyData, h.gust_mph ≤ M) ∧
    ∃ i : Nat, ∃ hi : i < hourlyData.length,
      (hourlyData.get ⟨i, hi⟩).gust_mph = M ∧
      (∀ j : Nat, ∀ hj : j < hourlyData.length, j < i →
        (hourlyData.get ⟨j, hj⟩).gust_mph ≠ M) ∧
      List.lookup "maxWindTime"
          ((getWeatherData (fun _ _ => LookupOutcome.ok dayData hourlyData) now
            location dateString).1).data = some (hourlyData.get ⟨i, hi⟩).time := by
  have hds : dateString ≠ "" := by
    intro e
    rw [e] at hparse
    simp [safeParseDate] at hparse
  have hres : (getWeatherData (fun _ _ => LookupOutcome.ok dayData hourlyData) now
      location dateString).1 = ⟨true, normalizeWeather dayData hourlyData, none⟩ := by
    simp only [getWeatherData, hparse]
    rw [if_neg (by push_neg; exact ⟨hloc, hds⟩), if_neg hpast]
  have hMmem : M ∈ hourlyData.map (fun h => h.gust_mph) := mathMaxList_mem _ _ hmax
  obtain ⟨h0, hh0mem, hh0⟩ := List.mem_map.mp hMmem
  have hfind : hourlyData.find? (fun h => h.gust_mph == M) ≠ none := by
    intro hn
    rw [List.find?_eq_none] at hn
    have := hn h0 hh0mem
    rw [hh0] at this
    simp at this
  cases hfa : hourlyData.find? (fun h => h.gust_mph == M) with
  | none => exact absurd hfa hfind
  | some a =>
    obtain ⟨i, hi, hget, hpa, hfirst⟩ := find?_first_index _ _ _ hfa
    have hlookup1 : List.lookup "maxWindGust" (normalizeWeather dayData hourlyData) =
        some (toString M ++ " mph") := by
      simp only [normalizeWeather, hmax]
      rfl
    have hlookup2 : List.lookup "maxWindTime" (normalizeWeather dayData hourlyData) =
        some a.time := by
      simp only [normalizeWeather, hmax, hfa]
      rfl
    refine ⟨by rw [hres]; exact hlookup1, ?_, i, hi, ?_, ?_, ?_⟩
    · intro h hm
      exact mathMaxList_le _ _ hmax h.gust_mph (List.mem_map_of_mem _ hm)
    · rw [hget]
      exact beq_iff_eq.mp hpa
    · intro j hj hji
      have := hfirst j hj hji
      simpa using this
    · rw [hres, hget]
      exact hlookup2

/-- Witness for C8: the maximum gust 35 occurs at indices 1 and 2; the
reported time is that of index 1, the first. -/
theorem max_gust_and_first_time_witness :
    List.lookup "maxWindGust"
        ((getWeatherData (fun _ _ => LookupOutcome.ok demoDay demoHours) 1760227200000
          "456 Oak Ave" "2023-04-01").1).data = some (toString (35 : Int) ++ " mph") :=
  (max_gust_and_first_time 1760227200000 "456 Oak Ave" "2023-04-01"
    (epochDaysOf 2023 4 1 * msPerDay) 35 demoDay demoHours
    (by decide) (by decide) (by decide) (by decide)).1

/-- C2 counterexample: for the all-absent fact sheet, empty weather summary
and empty custom instructions, the assembled prompt for `introduction`
contains the bracketed placeholder token `[N/A]` and hence the literal
`N/A` — the fixed global rule text itself carries them. -/
theorem prompt_contains_placeholder_tokens :
    strContainsSub (generateSectionPrompt "introduction" blankContext [] "") "[N/A]" = true ∧
    strContainsSub (generateSectionPrompt "introduction" blankContext [] "") "N/A" = true :=
  ⟨by decide, by decide⟩

/-- Every catalog prompt for the all-absent fact sheet is clean outside the
two fixed anti-placeholder rule lines. -/
theorem allCatalogPromptsClean :
    (catalogPromptIds.all (fun sid =>
      placeholderFreeOutsideRule (generateSectionPrompt sid blankContext [] ""))) = true := by
  decide

/-- C2 amended: for every all-blank-or-absent fact sheet, empty weather
summary and empty custom instructions, and every catalog section id, the
assembled prompt contains bracketed tokens and the literal `N/A` only inside
the two fixed rule lines of the global instruction block that name the
forbidden placeholders; deleting those fixed lines leaves a text with no
opening bracket and no `N/A`. -/
theorem prompt_placeholder_free_outside_rules (c : Context) (sid : String)
    (hblank : blankContextP c = true) (hid : sid ∈ catalogPromptIds) :
    placeholderFreeOutsideRule (generateSectionPrompt sid c [] "") = true := by
  rw [generateSectionPrompt_blank c sid hblank]
  exact List.all_eq_true.mp allCatalogPromptsClean sid hid

/-- Witness for the amended C2 at the meteorologist section and the
all-absent fact sheet. -/
theorem prompt_placeholder_free_outside_rules_witness :
    blankContextP blankContext = true ∧
    placeholderFreeOutsideRule (generateSectionPrompt "meteorologist" blankContext [] "") = true :=
  ⟨by decide, prompt_placeholder_free_outside_rules blankContext "meteorologist"
    (by decide) (by decide)⟩

/-- C1 counterexample: in the session that accepts every workflow section in
catalog order, the compiled document does not contain the display title
`Opening Letter` (nor any of the claimed ten-section catalog entries beyond
the eight ids of `reportSections`), while it does contain the first actual
catalog title — the workflow catalog has eight sections and no opening
letter, introduction or table of contents. -/
theorem compiled_report_omits_opening_letter :
    strContainsSub (acceptAllCompiled (fun _ => "Accepted section body.")) "Opening Letter" = false ∧
    strContainsSub (acceptAllCompiled (fun _ => "Accepted section body."))
      "# Authorization and Scope of Investigation" = true ∧
    reportSections.length = 8 :=
  ⟨by decide, by decide, rfl⟩

set_option maxHeartbeats 1600000 in
/-- C1 amended: accepting every section in catalog order with non-empty
generated content compiles a document that is exactly, for each of the eight
catalog sections in catalog order, the display title as a markdown heading
followed by that section's accepted content — no section skipped or
duplicated. -/
theorem acceptAll_compiles_catalog_in_order (f : String → String)
    (h : ∀ sec ∈ reportSections, f sec.id ≠ "") :
    acceptAllCompiled f =
      String.join (reportSections.map (fun sec =>
        "# " ++ sec.title ++ "\n\n" ++ f sec.id ++ "\n\n")) := by
  have h1 : f "authorization" ≠ "" :=
    h ⟨"authorization", "Authorization and Scope of Investigation"⟩ (by decide)
  have h2 : f "background" ≠ "" := h ⟨"background", "Background Information"⟩ (by decide)
  have h3 : f "observations" ≠ "" :=
    h ⟨"observations", "Site Observations and Analysis"⟩ (by decide)
  have h4 : f "moisture" ≠ "" := h ⟨"moisture", "Roof Moisture Survey"⟩ (by decide)
  have h5 : f "meteorologist" ≠ "" := h ⟨"meteorologist", "Meteorologist Report"⟩ (by decide)
  have h6 : f "conclusions" ≠ "" :=
    h ⟨"conclusions", "Conclusions and Recommendations"⟩ (by decide)
  have h7 : f "rebuttal" ≠ "" := h ⟨"rebuttal", "Rebuttal"⟩ (by decide)
  have h8 : f "limitations" ≠ "" := h ⟨"limitations", "Limitations"⟩ (by decide)
  have key : (pressAcceptTimes (fun id => GenOutcome.ok (f id)) 8
      (startSession (fun id => GenOutcome.ok (f id)))).generatedSections =
      [("authorization", f "authorization"), ("background", f "background"),
       ("observations", f "observations"), ("moisture", f "moisture"),
       ("meteorologist", f "meteorologist"), ("conclusions", f "conclusions"),
       ("rebuttal", f "rebuttal"), ("limitations", f "limitations")] := rfl
  have key2 : compileFinalReport
      [("authorization", f "authorization"), ("background", f "background"),
       ("observations", f "observations"), ("moisture", f "moisture"),
       ("meteorologist", f "meteorologist"), ("conclusions", f "conclusions"),
       ("rebuttal", f "rebuttal"), ("limitations", f "limitations")] =
      String.join
        [if f "authorization" ≠ "" then
          "# " ++ "Authorization and Scope of Investigation" ++ "\n\n" ++ f "authorization" ++ "\n\n" else "",
         if f "background" ≠ "" then
          "# " ++ "Background Information" ++ "\n\n" ++ f "background" ++ "\n\n" else "",
         if f "observations" ≠ "" then
          "# " ++ "Site Observations and Analysis" ++ "\n\n" ++ f "observations" ++ "\n\n" else "",
         if f "moisture" ≠ "" then
          "# " ++ "Roof Moisture Survey" ++ "\n\n" ++ f "moisture" ++ "\n\n" else "",
         if f "meteorologist" ≠ "" then
          "# " ++ "Meteorologist Report" ++ "\n\n" ++ f "meteorologist" ++ "\n\n" else "",
         if f "conclusions" ≠ "" then
          "# " ++ "Conclusions and Recommendations" ++ "\n\n" ++ f "conclusions" ++ "\n\n" else "",
         if f "rebuttal" ≠ "" then
          "# " ++ "Rebuttal" ++ "\n\n" ++ f "rebuttal" ++ "\n\n" else "",
         if f "limitations" ≠ "" then
          "# " ++ "Limitations" ++ "\n\n" ++ f "limitations" ++ "\n\n" else ""] := rfl
  unfold acceptAllCompiled
  rw [key, key2, if_pos h1, if_pos h2, if_pos h3, if_pos h4, if_pos h5, if_pos h6,
    if_pos h7, if_pos h8]
  rfl

/-- Witness for the amended C1 with uniform non-empty content. -/
theorem acceptAll_compiles_catalog_in_order_witness :
    acceptAllCompiled (fun _ => "Body.") =
      String.join (reportSections.map (fun sec =>
        "# " ++ sec.title ++ "\n\n" ++ (fun _ => "Body.") sec.id ++ "\n\n")) :=
  acceptAll_compiles_catalog_in_order (fun _ => "Body.") (by decide)

end PAUSA
